import Mathlib

/-!
Shallow embedding of the settings subsystem of vimiv-qt
(`src/vimiv/api/settings.py`): the `Setting` value/convert contract, the
numeric, prompt, thumbnail-size and order variants, and the helpers they
rely on. Python builtins (string comparison, `str.lower`, `int(...)`,
`sorted`) are modelled as executable Lean functions over `List Char`.
-/

deriving instance DecidableEq for Except

namespace Vimiv

/-- Python string comparison on the underlying character lists: lexicographic
by Unicode code point, exactly the order CPython uses for `str`. -/
def chars_le : List Char → List Char → Bool
  | [], _ => true
  | _ :: _, [] => false
  | x :: xs, y :: ys => if x < y then true else if y < x then false else chars_le xs ys

/-- Python `a <= b` on strings. -/
def str_le (a b : String) : Bool := chars_le a.data b.data

/-- Python `str.lower`, modelled characterwise (agrees with CPython on the
ASCII strings the claims exercise). -/
def str_lower (s : String) : String := String.mk (s.data.map Char.toLower)

/-- Value of a list of decimal digits; `none` as soon as a character is not a
digit. -/
def digits_val : List Char → Option Nat
  | [] => some 0
  | c :: cs =>
    if c.isDigit then (digits_val cs).map (fun n => (c.toNat - 48) * 10 ^ cs.length + n)
    else none

/-- Python `int(s)` on a string: an optional sign followed by decimal digits
yields the integer, anything else raises `ValueError` (modelled as `none`).
CPython additionally strips whitespace and allows underscore separators,
which no claim exercises. -/
def py_int (s : String) : Option Int :=
  match s.data with
  | [] => none
  | '-' :: rest => if rest = [] then none else (digits_val rest).map (fun n => -(n : Int))
  | '+' :: rest => if rest = [] then none else (digits_val rest).map (fun n => (n : Int))
  | cs => (digits_val cs).map (fun n => (n : Int))

/-- Modelled from the spec: `vimiv.utils.clamp` (module `vimiv/utils/__init__.py`,
which is not among the sources) constrains a value into the inclusive
`[minimum, maximum]` range, each bound applying only when it is set; a
missing bound leaves that side unconstrained. -/
def clamp {α : Type} [LinearOrder α] (value : α) (minimum maximum : Option α) : α :=
  let lower := match minimum with
    | some m => max value m
    | none => value
  match maximum with
  | some m => min lower m
  | none => lower

/-- Inputs accepted by `Setting.convert` (settings.py line 128): either a
value already of the setting type `α` (Python `self.typ(value)` coerces it;
on a value already of the semantic type that is the identity), or a string
handled by the variant `convertstr` rule. -/
inductive PyInput (α : Type) where
  | native (x : α)
  | str (s : String)
  deriving DecidableEq

/-- Failures raised from the convert methods. All of them are Python
`ValueError`s; the constructors record the three message shapes the module
produces: line 134 `Cannot convert ... to ...` (carrying the offending value
and the display name `str(self)`), line 289 `Thumbnail size must be one of
64, 128, 256, 512`, and line 341 `Option must be one of ...` (carrying only
the table keys). -/
inductive VError (ι : Type) where
  | cannotConvert (value : ι) (displayName : String)
  | thumbnailNotAllowed
  | orderNotAllowed (options : List String)
  deriving DecidableEq

/-- Payload of a conversion failure which carries the offending input and the
setting display name; only the base `Cannot convert` error has one. -/
def VError.payload {ι : Type} : VError ι → Option (ι × String)
  | .cannotConvert v n => some (v, n)
  | _ => none

/-- Result of one assignment to `Setting.value` (settings.py lines 110-116):
the value stored afterwards, the list of values emitted by the `changed`
signal during the call, and the error propagated to the caller, if any. -/
structure SetOutcome (α ε : Type) where
  value : α
  emitted : List α
  err : Option ε
  deriving DecidableEq

namespace Setting

/-- Setting.convert (settings.py lines 128-134): a string goes through the
variant `convertstr`, any other value through the `typ` coercion (identity on
a value already of the semantic type); a `ValueError` from either is replaced
by the unified `Cannot convert ... to ...` error carrying the offending input
and the display name. -/
def convert {α : Type} (convertstr : String → Option α) (displayName : String)
    (input : PyInput α) : Except (VError (PyInput α)) α :=
  match input with
  | .native x => .ok x
  | .str s =>
    match convertstr s with
    | some v => .ok v
    | none => .error (.cannotConvert input displayName)

/-- Setter of the `value` property (settings.py lines 110-116): convert the
input (an exception there propagates before any mutation), and only when the
converted value differs from the current one, store it and emit the `changed`
signal carrying it. -/
def set_value {α ι ε : Type} [DecidableEq α] (convert : ι → Except ε α)
    (current : α) (input : ι) : SetOutcome α ε :=
  match convert input with
  | .error e => ⟨current, [], some e⟩
  | .ok new_value =>
    if new_value = current then ⟨current, [], none⟩
    else ⟨new_value, [new_value], none⟩

end Setting

/-- BoolSetting.convertstr (settings.py lines 151-157): lowercase the text,
accept the truthy and falsy tokens, raise `ValueError` otherwise. -/
def BoolSetting.convertstr (text : String) : Option Bool :=
  let text := str_lower text
  if text = "yes" ∨ text = "true" ∨ text = "1" then some true
  else if text = "no" ∨ text = "false" ∨ text = "0" then some false
  else none

/-- Bounds of a numeric setting (NumberSetting attributes `min_value` and
`max_value`, settings.py lines 229-242) together with its current value. -/
structure NumberSetting (α : Type) where
  value : α
  min_value : Option α
  max_value : Option α
  deriving DecidableEq

namespace NumberSetting

variable {α : Type} [LinearOrder α]

/-- NumberSetting.convert (settings.py lines 254-255): the base conversion of
`Setting.convert` (with `typ` the native numeric parse `parse` on strings)
followed by clamping into the `[min_value, max_value]` bounds. -/
def convert (parse : String → Option α) (displayName : String)
    (s : NumberSetting α) (input : PyInput α) : Except (VError (PyInput α)) α :=
  (Setting.convert parse displayName input).map (fun x => clamp x s.min_value s.max_value)

/-- Assignment to the `value` property of a numeric setting: the inherited
setter of settings.py lines 110-116 with the clamping `NumberSetting.convert`. -/
def set_value (parse : String → Option α) (displayName : String)
    (s : NumberSetting α) (input : PyInput α) : SetOutcome α (VError (PyInput α)) :=
  Setting.set_value (convert parse displayName s) s.value input

/-- NumberSetting.__iadd__ (settings.py lines 244-247): `self.value +=
super().convert(value)` converts the operand with the base, unclamped
conversion, adds it to the current value and assigns the sum through the
normal `value` setter. An operand the base conversion rejects propagates its
error before any mutation. -/
def iadd [Add α] (parse : String → Option α) (displayName : String)
    (s : NumberSetting α) (input : PyInput α) : SetOutcome α (VError (PyInput α)) :=
  match Setting.convert parse displayName input with
  | .error e => ⟨s.value, [], some e⟩
  | .ok d => set_value parse displayName s (.native (s.value + d))

/-- NumberSetting.__imul__ (settings.py lines 249-252): as `__iadd__` with
multiplication in place of addition. -/
def imul [Mul α] (parse : String → Option α) (displayName : String)
    (s : NumberSetting α) (input : PyInput α) : SetOutcome α (VError (PyInput α)) :=
  match Setting.convert parse displayName input with
  | .error e => ⟨s.value, [], some e⟩
  | .ok d => set_value parse displayName s (.native (s.value * d))

end NumberSetting

namespace ThumbnailSizeSetting

/-- ThumbnailSizeSetting.ALLOWED_VALUES (settings.py line 284). -/
def ALLOWED_VALUES : List Int := [64, 128, 256, 512]

/-- ThumbnailSizeSetting.convert (settings.py lines 286-290): the base
conversion with `typ = int` and display name `ThumbSize`, then a `ValueError`
with its own message when the integer is not one of the allowed values. -/
def convert (input : PyInput Int) : Except (VError (PyInput Int)) Int :=
  match Setting.convert py_int ("ThumbSize") input with
  | .error e => .error e
  | .ok ivalue =>
    if ivalue ∈ ALLOWED_VALUES then .ok ivalue else .error .thumbnailNotAllowed

/-- Assignment to the `value` property of a thumbnail-size setting. -/
def set_value (current : Int) (input : PyInput Int) :
    SetOutcome Int (VError (PyInput Int)) :=
  Setting.set_value convert current input

/-- ThumbnailSizeSetting.step (settings.py lines 292-296): move the index of
the current value in ALLOWED_VALUES one step up or down, clamp the index into
the list, and assign the value at the clamped index through the `value`
setter. Python `list.index` raises when the value is absent; on the states
the claims exercise the current value is a member. -/
def step (current : Int) (up : Bool) : SetOutcome Int (VError (PyInput Int)) :=
  let index : Int := (ALLOWED_VALUES.indexOf current : Nat) + (if up then 1 else -1)
  let index := clamp index (some 0) (some ((ALLOWED_VALUES.length : Int) - 1))
  set_value current (.native (ALLOWED_VALUES.getD index.toNat 0))

end ThumbnailSizeSetting

namespace PromptSetting

/-- PromptSetting.Options (settings.py lines 177-185): the tri-state
enumeration with values `true`, `false` and `ask`. -/
inductive Options where
  | true_
  | false_
  | ask
  deriving DecidableEq

/-- Lookup of an enum member by value, `Options(text)`: `ValueError`
(modelled as `none`) when the text is not the value of a member. -/
def Options.fromValue : String → Option Options
  | "true" => some .true_
  | "false" => some .false_
  | "ask" => some .ask
  | _ => none

/-- PromptSetting.suggestions (settings.py lines 196-197). -/
def suggestions : List String := ["true", "prompt", "false"]

/-- PromptSetting.convertstr (settings.py lines 199-205): lowercase the text,
map the extra truthy and falsy tokens, otherwise look the text up as an enum
value. -/
def convertstr (text : String) : Option Options :=
  let text := str_lower text
  if text = "yes" ∨ text = "1" then some .true_
  else if text = "no" ∨ text = "0" then some .false_
  else Options.fromValue text

/-- PromptSetting.__bool__ (settings.py lines 210-215) with its collaborator
`vimiv.api.prompt.ask_question` (module not among the sources) modelled from
the spec as an injected capability `ask_question : title → body → Bool`.
Returns the truth value together with the number of times the collaborator
was invoked during this evaluation. -/
def bool_ (value : Options) (title question : String)
    (ask_question : String → String → Bool) : Bool × Nat :=
  if value = Options.ask then (ask_question title question, 1)
  else if value = Options.false_ then (false, 0)
  else (true, 0)

end PromptSetting

/-- Stable insertion used to model Python `sorted`: a new element is placed
after every already-placed element `y` with `le y x`, so elements with equal
keys keep their original relative order. -/
def pyInsert {σ : Type} (le : σ → σ → Bool) (x : σ) : List σ → List σ
  | [] => [x]
  | y :: ys => if le y x then y :: pyInsert le x ys else x :: y :: ys

/-- Python `sorted(values, key, reverse)`: a stable sort of the values on the
order `le_key` of their keys (Python `<=` on the key type), descending when
`reverse` is set; CPython keeps elements with equal keys in their original
order in both directions, which the flipped relation together with stable
insertion reproduces. -/
def pySorted {σ κ : Type} (le_key : κ → κ → Bool) (key : σ → κ) (reverse : Bool)
    (values : List σ) : List σ :=
  let le : σ → σ → Bool := fun a b =>
    if reverse then le_key (key b) (key a) else le_key (key a) (key b)
  values.foldl (fun acc x => pyInsert le x acc) []

/-- Current values of the two global boolean settings `sort.ignore_case` and
`sort.reverse` at the moment `OrderSetting.sort` is called; both are read
from the registry at sort time, not captured when the order setting is
constructed. -/
structure SortGlobals where
  ignore_case : Bool
  reverse : Bool
  deriving DecidableEq

namespace OrderSetting

/-- OrderSetting.STR_ORDER_TYPES (settings.py line 326): the purely
string-based strategies whose key function is wrapped for case handling. -/
def STR_ORDER_TYPES : List String := ["alphabetical", "natural"]

/-- OrderSetting.convert (settings.py lines 339-342): the value must be a key
of the ordering-function table, otherwise a `ValueError` naming the table
keys; the stored value is the string itself. -/
def convert (order_types : List String) (value : String) :
    Except (VError String) String :=
  if value ∈ order_types then .ok value else .error (.orderNotAllowed order_types)

/-- OrderSetting._get_ordering (settings.py lines 352-363): the key function
of the current strategy; for the string strategies it is wrapped to lowercase
its input first when the global ignore-case setting currently holds. For the
`alphabetical` strategy the table entry is Python `str`, the identity on
strings. -/
def get_ordering {κ : Type} (value : String) (ordering : String → κ)
    (ignore_case : Bool) : String → κ :=
  if value ∈ STR_ORDER_TYPES then
    if ignore_case then fun s => ordering (str_lower s)
    else fun s => ordering s
  else ordering

/-- OrderSetting.sort (settings.py lines 344-347): sort the values with the
current ordering as key, under the Python order `le_key` of the key type,
with the current value of the global reverse setting; the ignore-case and
reverse flags are read at call time from `g`. -/
def sort {κ : Type} (le_key : κ → κ → Bool) (value : String)
    (ordering : String → κ) (g : SortGlobals) (values : List String) :
    List String :=
  pySorted le_key (get_ordering value ordering g.ignore_case) g.reverse values

end OrderSetting

/-- Dynamically typed Python values, as far as the claims about raw defaults
need them: integers and strings. -/
inductive PyVal where
  | int (n : Int)
  | str (s : String)
  deriving DecidableEq

/-- Whether a dynamic value is a Python `int`, the semantic type of an
integer setting. -/
def PyVal.is_int : PyVal → Bool
  | .int _ => true
  | .str _ => false

/-- Observable state of one setting in the dynamic model: `_value` and
`_default` (settings.py line 93), both plain Python objects. -/
structure DynSetting where
  value : PyVal
  default : PyVal
  deriving DecidableEq

namespace DynSetting

/-- Setting.__init__ (settings.py lines 77-95): `self._value = self._default
= default_value` stores the constructor argument without any conversion. -/
def init (default_value : PyVal) : DynSetting :=
  ⟨default_value, default_value⟩

/-- One lifetime operation on a setting: an assignment to the `value`
property, or `set_to_default` (settings.py lines 118-119), which assigns
`self.default` through the same property. -/
inductive Op where
  | set (input : PyVal)
  | set_to_default
  deriving DecidableEq

/-- Effect of one operation on the dynamic state, for a setting whose
conversion rule is `convert`: the `value` setter of settings.py lines 110-116
(a conversion error leaves the state untouched, an unchanged value is a
no-op). -/
def apply_op {ε : Type} (convert : PyVal → Except ε PyVal) (s : DynSetting) :
    Op → DynSetting
  | .set input =>
    ⟨(Setting.set_value convert s.value input).value, s.default⟩
  | .set_to_default =>
    ⟨(Setting.set_value convert s.value s.default).value, s.default⟩

/-- State of a setting after a sequence of lifetime operations. -/
def run {ε : Type} (convert : PyVal → Except ε PyVal) (s : DynSetting)
    (ops : List Op) : DynSetting :=
  ops.foldl (apply_op convert) s

end DynSetting

/-- IntSetting conversion (display name `Integer`, settings.py lines 258-264
with NumberSetting.convert) on dynamic values: an `int` is coerced by
`typ = int` (identity), a string is parsed with Python `int`, and the result
is clamped into the bounds; the converted result is always a Python `int`. -/
def IntSetting.convert_dyn (min_value max_value : Option Int) (v : PyVal) :
    Except (VError PyVal) PyVal :=
  match v with
  | .int n => .ok (.int (clamp n min_value max_value))
  | .str s =>
    match py_int s with
    | some n => .ok (.int (clamp n min_value max_value))
    | none => .error (.cannotConvert v ("Integer"))

/-! Helper lemmas about the shared `value` setter. -/

/-- Outcome of the value setter when conversion succeeds: the converted value
is stored (equal to the previous one or replacing it), a notification is
emitted exactly when it differs, and no error escapes. -/
theorem base_set_value_ok_outcome {α ι ε : Type} [DecidableEq α]
    (convert : ι → Except ε α) (current : α) (input : ι) (v : α)
    (h : convert input = .ok v) :
    Setting.set_value convert current input =
      ⟨v, if v = current then [] else [v], none⟩ := by
  unfold Setting.set_value
  rw [h]
  by_cases hv : v = current <;> simp [hv]

/-- Outcome of the value setter when conversion fails: the error escapes, the
stored value is untouched and nothing is emitted. -/
theorem base_set_value_error_outcome {α ι ε : Type} [DecidableEq α]
    (convert : ι → Except ε α) (current : α) (input : ι) (e : ε)
    (h : convert input = .error e) :
    Setting.set_value convert current input = ⟨current, [], some e⟩ := by
  unfold Setting.set_value
  rw [h]

/-- Value stored by the setter of a numeric setting on an input whose base
conversion yields `x`: always the clamp of `x` into the bounds, with no
error. -/
theorem number_set_value_ok_outcome {α : Type} [LinearOrder α]
    (parse : String → Option α) (displayName : String) (s : NumberSetting α)
    (input : PyInput α) (x : α)
    (h : Setting.convert parse displayName input = .ok x) :
    NumberSetting.set_value parse displayName s input =
      ⟨clamp x s.min_value s.max_value,
       if clamp x s.min_value s.max_value = s.value then []
       else [clamp x s.min_value s.max_value], none⟩ := by
  apply base_set_value_ok_outcome
  unfold NumberSetting.convert
  rw [h]
  rfl

/-- Each bound that is set holds of the clamped value, provided the two
bounds are compatible when both are set. -/
theorem clamp_mem_bounds {α : Type} [LinearOrder α] (x : α)
    (minimum maximum : Option α)
    (hbounds : ∀ lo hi, minimum = some lo → maximum = some hi → lo ≤ hi) :
    (∀ lo, minimum = some lo → lo ≤ clamp x minimum maximum) ∧
    (∀ hi, maximum = some hi → clamp x minimum maximum ≤ hi) := by
  constructor
  · intro lo hlo
    subst hlo
    cases maximum with
    | none => exact le_max_right x lo
    | some hi => exact le_min (le_max_right x lo) (hbounds lo hi rfl rfl)
  · intro hi hhi
    subst hhi
    cases minimum with
    | none => exact min_le_right x hi
    | some lo => exact min_le_right (max x lo) hi

/-! Claim theorems. -/

/-- C1: for every numeric setting with bounds (compatible when both are set)
and every input accepted by the base conversion, the assignment to the
`value` property succeeds (no error is raised) and the stored value lies
within each bound that is set: out-of-range inputs are clamped, never
rejected. -/
theorem C1_number_set_value_clamps (α : Type) [LinearOrder α]
    (parse : String → Option α) (displayName : String) (s : NumberSetting α)
    (input : PyInput α) (x : α)
    (hok : Setting.convert parse displayName input = .ok x)
    (hbounds : ∀ lo hi, s.min_value = some lo → s.max_value = some hi → lo ≤ hi) :
    (NumberSetting.set_value parse displayName s input).err = none ∧
    (∀ lo, s.min_value = some lo →
      lo ≤ (NumberSetting.set_value parse displayName s input).value) ∧
    (∀ hi, s.max_value = some hi →
      (NumberSetting.set_value parse displayName s input).value ≤ hi) := by
  rw [number_set_value_ok_outcome parse displayName s input x hok]
  have h := clamp_mem_bounds x s.min_value s.max_value hbounds
  exact ⟨rfl, h.1, h.2⟩

/-- Witness for C1 at the integer setting with bounds [0, 10], current value
3 and the numeric string input 20: the call succeeds and the stored value
(the clamped 10) lies within the bounds. -/
theorem C1_witness :
    (NumberSetting.set_value py_int ("Integer")
        (⟨3, some 0, some 10⟩ : NumberSetting Int) (.str ("20"))).err = none ∧
    (∀ lo, (some 0 : Option Int) = some lo →
      lo ≤ (NumberSetting.set_value py_int ("Integer")
        (⟨3, some 0, some 10⟩ : NumberSetting Int) (.str ("20"))).value) ∧
    (∀ hi, (some 10 : Option Int) = some hi →
      (NumberSetting.set_value py_int ("Integer")
        (⟨3, some 0, some 10⟩ : NumberSetting Int) (.str ("20"))).value ≤ hi) :=
  C1_number_set_value_clamps Int py_int ("Integer") ⟨3, some 0, some 10⟩
    (.str ("20")) 20 (by decide) (fun lo hi h1 h2 => by
      cases h1
      cases h2
      decide)

/-- C2: for every setting and every input its conversion rule accepts with
converted value `v`, the assignment replaces the current value by `v` and
emits exactly one notification carrying `v` when `v` differs from the current
value; when `v` equals the current value nothing is stored or emitted; and a
second identical assignment never emits a further notification. -/
theorem C2_set_value_idempotent_notification (α ι ε : Type) [DecidableEq α]
    (convert : ι → Except ε α) (current : α) (input : ι) (v : α)
    (h : convert input = .ok v) :
    (v ≠ current → Setting.set_value convert current input = ⟨v, [v], none⟩) ∧
    (v = current → Setting.set_value convert current input = ⟨current, [], none⟩) ∧
    (Setting.set_value convert
      (Setting.set_value convert current input).value input).emitted = [] := by
  rw [base_set_value_ok_outcome convert current input v h]
  refine ⟨fun hv => by simp [hv], fun hv => by simp [hv], ?_⟩
  rw [base_set_value_ok_outcome convert v input v h]
  simp

/-- Witness for C2 at a boolean setting: setting the string `yes` over the
current value `false` stores `true` and emits it once, and repeating the
assignment emits nothing. -/
theorem C2_witness :
    Setting.set_value (Setting.convert BoolSetting.convertstr ("Bool")) false
      (.str ("yes")) = ⟨true, [true], none⟩ ∧
    (Setting.set_value (Setting.convert BoolSetting.convertstr ("Bool"))
      (Setting.set_value (Setting.convert BoolSetting.convertstr ("Bool")) false
        (.str ("yes"))).value (.str ("yes"))).emitted = [] :=
  ⟨(C2_set_value_idempotent_notification Bool (PyInput Bool) (VError (PyInput Bool))
      (Setting.convert BoolSetting.convertstr ("Bool")) false (.str ("yes")) true
      (by decide)).1 (by decide),
   (C2_set_value_idempotent_notification Bool (PyInput Bool) (VError (PyInput Bool))
      (Setting.convert BoolSetting.convertstr ("Bool")) false (.str ("yes")) true
      (by decide)).2.2⟩

/-- C9: for every setting and every input whose conversion fails, the
assignment to the `value` property propagates the error, leaves the stored
value exactly as it was before the call, and emits no notification. -/
theorem C9_set_value_error_atomic (α ι ε : Type) [DecidableEq α]
    (convert : ι → Except ε α) (current : α) (input : ι) (e : ε)
    (h : convert input = .error e) :
    Setting.set_value convert current input = ⟨current, [], some e⟩ :=
  base_set_value_error_outcome convert current input e h

/-- Witness for C9 at the thumbnail-size setting: assigning 100 over the
current value 128 propagates the allowed-values error, keeps 128 and emits
nothing. -/
theorem C9_witness :
    Setting.set_value ThumbnailSizeSetting.convert 128 (.native 100) =
      ⟨128, [], some .thumbnailNotAllowed⟩ :=
  C9_set_value_error_atomic Int (PyInput Int) (VError (PyInput Int))
    ThumbnailSizeSetting.convert 128 (.native 100) .thumbnailNotAllowed (by decide)

/-- C3 counterexample: converting 100 with the ThumbnailSize setting fails,
but the error is the allowed-values message, whose payload carries neither
the offending value nor the display name — refuting uniformity of the error
payload across all variants. -/
theorem C3_counterexample :
    ThumbnailSizeSetting.convert (.native 100) = .error .thumbnailNotAllowed ∧
    (VError.thumbnailNotAllowed : VError (PyInput Int)).payload = none := by
  exact ⟨by decide, rfl⟩

/-- Every failure of the base conversion is the unified error carrying the
offending input and the display name. -/
theorem base_convert_error_payload {α : Type} (convertstr : String → Option α)
    (displayName : String) (input : PyInput α) (e : VError (PyInput α))
    (h : Setting.convert convertstr displayName input = .error e) :
    e = .cannotConvert input displayName := by
  unfold Setting.convert at h
  split at h
  · cases h
  · split at h
    · cases h
    · cases h
      rfl

/-- Every failure of the clamping numeric conversion is the unified error
carrying the offending input and the display name. -/
theorem number_convert_error_payload {α : Type} [LinearOrder α]
    (parse : String → Option α) (displayName : String) (s : NumberSetting α)
    (input : PyInput α) (e : VError (PyInput α))
    (h : NumberSetting.convert parse displayName s input = .error e) :
    e = .cannotConvert input displayName := by
  unfold NumberSetting.convert at h
  cases h2 : Setting.convert parse displayName input with
  | error e2 =>
    rw [h2] at h
    cases h
    exact base_convert_error_payload parse displayName input _ h2
  | ok x =>
    rw [h2] at h
    cases h

/-- Failures of the thumbnail-size conversion: the unified payload-carrying
error from the integer parse, or the bare allowed-values error. -/
theorem ThumbnailSizeSetting.convert_error_cases (input : PyInput Int)
    (e : VError (PyInput Int))
    (h : ThumbnailSizeSetting.convert input = .error e) :
    e = .cannotConvert input ("ThumbSize") ∨ e = .thumbnailNotAllowed := by
  unfold ThumbnailSizeSetting.convert at h
  split at h
  next e2 heq =>
    cases h
    exact .inl (base_convert_error_payload py_int ("ThumbSize") input _ heq)
  next ivalue heq =>
    split at h
    · cases h
    · cases h
      exact .inr rfl

/-- Every failure of the order conversion is the bare error naming only the
table keys. -/
theorem order_convert_error_payload (order_types : List String)
    (value : String) (e : VError String)
    (h : OrderSetting.convert order_types value = .error e) :
    e = .orderNotAllowed order_types := by
  unfold OrderSetting.convert at h
  split at h
  · cases h
  · cases h
    rfl

/-- C3 (amended): every failure of the base conversion — for any variant
conversion rule, and for the clamping numeric conversion built on it — is
the single error carrying the offending input value and the setting display
name; but the ThumbnailSize conversion additionally fails with the bare
allowed-values error on integers outside the discrete set, and every Order
conversion failure is the bare error naming only the valid option keys. -/
theorem C3_error_payload_amended (α : Type) [LinearOrder α]
    (convertstr : String → Option α) (parse : String → Option α)
    (displayName : String) (s : NumberSetting α) (input : PyInput α)
    (iinput : PyInput Int) (order_types : List String) (ovalue : String) :
    (∀ e, Setting.convert convertstr displayName input = .error e →
      e.payload = some (input, displayName)) ∧
    (∀ e, NumberSetting.convert parse displayName s input = .error e →
      e.payload = some (input, displayName)) ∧
    (∀ e, ThumbnailSizeSetting.convert iinput = .error e →
      e.payload = some (iinput, "ThumbSize") ∨ e = .thumbnailNotAllowed) ∧
    (∀ e, OrderSetting.convert order_types ovalue = .error e →
      e = .orderNotAllowed order_types) := by
  refine ⟨?_, ?_, ?_, ?_⟩
  · intro e he
    rw [base_convert_error_payload convertstr displayName input e he]
    rfl
  · intro e he
    rw [number_convert_error_payload parse displayName s input e he]
    rfl
  · intro e he
    cases ThumbnailSizeSetting.convert_error_cases iinput e he with
    | inl hc =>
      rw [hc]
      exact .inl rfl
    | inr hc => exact .inr hc
  · intro e he
    exact order_convert_error_payload order_types ovalue e he

/-- Witness for C3 (amended) at concrete failing inputs: the string `abc` for
an integer setting, both the string `abc` and the in-range-but-disallowed 100
for the thumbnail-size setting, and the value `shuffled` for an order setting
with the built-in keys. -/
theorem C3_witness :
    (VError.cannotConvert (PyInput.str ("abc") : PyInput Int) ("Integer")).payload =
      some (.str ("abc"), "Integer") ∧
    ((VError.thumbnailNotAllowed : VError (PyInput Int)).payload =
        some (.native 100, "ThumbSize") ∨
      (VError.thumbnailNotAllowed : VError (PyInput Int)) = .thumbnailNotAllowed) ∧
    (VError.orderNotAllowed ["alphabetical", "natural", "recently-modified", "none"] :
        VError String) =
      .orderNotAllowed ["alphabetical", "natural", "recently-modified", "none"] :=
  ⟨(C3_error_payload_amended Int py_int py_int ("Integer")
      ⟨3, none, none⟩ (.str ("abc")) (.native 100)
      ["alphabetical", "natural", "recently-modified", "none"] ("shuffled")).2.1
    (.cannotConvert (.str ("abc")) ("Integer")) (by decide),
   (C3_error_payload_amended Int py_int py_int ("Integer")
      ⟨3, none, none⟩ (.str ("abc")) (.native 100)
      ["alphabetical", "natural", "recently-modified", "none"] ("shuffled")).2.2.1
    .thumbnailNotAllowed (by decide),
   (C3_error_payload_amended Int py_int py_int ("Integer")
      ⟨3, none, none⟩ (.str ("abc")) (.native 100)
      ["alphabetical", "natural", "recently-modified", "none"] ("shuffled")).2.2.2
    (.orderNotAllowed ["alphabetical", "natural", "recently-modified", "none"])
    (by decide)⟩

/-- C4 counterexample: the constructor stores the default value without any
conversion (settings.py line 93), so a setting constructed with the raw
string default `foo` holds that raw string as its current value — refuting
the invariant for arbitrary construction defaults. -/
theorem C4_counterexample :
    (DynSetting.init (.str ("foo"))).value = .str ("foo") ∧
    (DynSetting.init (.str ("foo"))).value.is_int = false := by
  exact ⟨rfl, rfl⟩

/-- Value stored by the dynamic setter is semantically valid whenever the
previous value was and every successful conversion produces a valid value. -/
theorem Setting.set_value_valid {ε : Type} (convert : PyVal → Except ε PyVal)
    (valid : PyVal → Bool)
    (hconv : ∀ input v, convert input = .ok v → valid v = true)
    (current : PyVal) (hcur : valid current = true) (input : PyVal) :
    valid (Setting.set_value convert current input).value = true := by
  unfold Setting.set_value
  cases h : convert input with
  | error e => exact hcur
  | ok v =>
    have hv := hconv input v h
    by_cases heq : v = current <;> simp [heq, hcur, hv]

/-- Semantic validity of the current value is preserved by every lifetime
operation, for any conversion rule whose successes are valid. -/
theorem DynSetting.apply_op_valid {ε : Type} (convert : PyVal → Except ε PyVal)
    (valid : PyVal → Bool)
    (hconv : ∀ input v, convert input = .ok v → valid v = true)
    (s : DynSetting) (hs : valid s.value = true) (op : DynSetting.Op) :
    valid (DynSetting.apply_op convert s op).value = true := by
  cases op with
  | set input => exact Setting.set_value_valid convert valid hconv s.value hs input
  | set_to_default => exact Setting.set_value_valid convert valid hconv s.value hs s.default

/-- C4 (amended): for a setting whose conversion rule only ever produces
values of the semantic type, and whose construction default already is of
the semantic type, the current value is of the semantic type at every point
of the lifetime — after construction and after any sequence of `set value`
and `set to default` operations, successful or failing. With an arbitrary
(for example raw string) default the guarantee fails at construction, since
the constructor stores the default unconverted. -/
theorem C4_value_valid_of_valid_default (ε : Type)
    (convert : PyVal → Except ε PyVal) (valid : PyVal → Bool)
    (hconv : ∀ input v, convert input = .ok v → valid v = true)
    (d : PyVal) (hd : valid d = true) (ops : List DynSetting.Op) :
    valid (DynSetting.run convert (DynSetting.init d) ops).value = true := by
  have general : ∀ (l : List DynSetting.Op) (s : DynSetting),
      valid s.value = true → valid (DynSetting.run convert s l).value = true := by
    intro l
    induction l with
    | nil => intro s hs; exact hs
    | cons op rest ih =>
      intro s hs
      exact ih (DynSetting.apply_op convert s op)
        (DynSetting.apply_op_valid convert valid hconv s hs op)
  exact general ops (DynSetting.init d) hd

/-- Successful dynamic integer conversions always produce a Python `int`. -/
theorem IntSetting.convert_dyn_is_int (min_value max_value : Option Int)
    (input v : PyVal)
    (h : IntSetting.convert_dyn min_value max_value input = .ok v) :
    v.is_int = true := by
  unfold IntSetting.convert_dyn at h
  split at h
  · cases h
    rfl
  · split at h
    · cases h
      rfl
    · cases h

/-- Witness for C4 (amended) at an integer setting with bounds [0, 10],
default 5, through a successful assignment, a failing assignment and a reset:
the value afterwards is a Python `int`. -/
theorem C4_witness :
    PyVal.is_int (DynSetting.run (IntSetting.convert_dyn (some 0) (some 10))
      (DynSetting.init (.int 5))
      [.set (.str ("7")), .set (.str ("oops")), .set_to_default]).value = true :=
  C4_value_valid_of_valid_default (VError PyVal)
    (IntSetting.convert_dyn (some 0) (some 10)) PyVal.is_int
    (fun input v h => IntSetting.convert_dyn_is_int (some 0) (some 10) input v h)
    (.int 5) (by decide)
    [.set (.str ("7")), .set (.str ("oops")), .set_to_default]

/-- C5: for the thumbnail-size setting, assigning 100 fails with the
conversion error and leaves the value untouched; assigning 256 over 128
succeeds and the value read afterwards is 256; one step up from 256 moves
the value to 512; one step up from 512 leaves 512, clamped at the upper end
of the discrete set. -/
theorem C5_thumbnail_size_behaviour :
    ThumbnailSizeSetting.set_value 128 (.native 100) =
      ⟨128, [], some .thumbnailNotAllowed⟩ ∧
    ThumbnailSizeSetting.set_value 128 (.native 256) = ⟨256, [256], none⟩ ∧
    ThumbnailSizeSetting.step 256 true = ⟨512, [512], none⟩ ∧
    ThumbnailSizeSetting.step 512 true = ⟨512, [], none⟩ := by
  exact ⟨by decide, by decide, by decide, by decide⟩

/-- C6: for every numeric setting and every operand whose base (unclamped)
conversion yields `d`, the in-place add assigns `value + d` through the
normal `value` setter, so it stores the clamp of `value + d` into the bounds
and emits a notification exactly when the stored result differs from the
previous value; in-place multiply behaves the same with `value * d`. -/
theorem C6_iadd_imul_clamped (α : Type) [LinearOrder α] [Add α] [Mul α]
    (parse : String → Option α) (displayName : String) (s : NumberSetting α)
    (input : PyInput α) (d : α)
    (h : Setting.convert parse displayName input = .ok d) :
    NumberSetting.iadd parse displayName s input =
      NumberSetting.set_value parse displayName s (.native (s.value + d)) ∧
    NumberSetting.iadd parse displayName s input =
      ⟨clamp (s.value + d) s.min_value s.max_value,
       if clamp (s.value + d) s.min_value s.max_value = s.value then []
       else [clamp (s.value + d) s.min_value s.max_value], none⟩ ∧
    NumberSetting.imul parse displayName s input =
      NumberSetting.set_value parse displayName s (.native (s.value * d)) ∧
    NumberSetting.imul parse displayName s input =
      ⟨clamp (s.value * d) s.min_value s.max_value,
       if clamp (s.value * d) s.min_value s.max_value = s.value then []
       else [clamp (s.value * d) s.min_value s.max_value], none⟩ := by
  have hadd : NumberSetting.iadd parse displayName s input =
      NumberSetting.set_value parse displayName s (.native (s.value + d)) := by
    unfold NumberSetting.iadd
    rw [h]
  have hmul : NumberSetting.imul parse displayName s input =
      NumberSetting.set_value parse displayName s (.native (s.value * d)) := by
    unfold NumberSetting.imul
    rw [h]
  refine ⟨hadd, ?_, hmul, ?_⟩
  · rw [hadd]
    exact number_set_value_ok_outcome parse displayName s _ _ rfl
  · rw [hmul]
    exact number_set_value_ok_outcome parse displayName s _ _ rfl

/-- Witness for C6 at the integer setting with bounds [0, 10] and current
value 3: adding the numeric string 20 stores the clamped 10 and emits it, and
multiplying by 20 does the same. -/
theorem C6_witness :
    NumberSetting.iadd py_int ("Integer") (⟨3, some 0, some 10⟩ : NumberSetting Int)
      (.str ("20")) = ⟨10, [10], none⟩ ∧
    NumberSetting.imul py_int ("Integer") (⟨3, some 0, some 10⟩ : NumberSetting Int)
      (.str ("20")) = ⟨10, [10], none⟩ :=
  ⟨((C6_iadd_imul_clamped Int py_int ("Integer") ⟨3, some 0, some 10⟩
      (.str ("20")) 20 (by decide)).2.1).trans (by decide),
   ((C6_iadd_imul_clamped Int py_int ("Integer") ⟨3, some 0, some 10⟩
      (.str ("20")) 20 (by decide)).2.2.2).trans (by decide)⟩

/-- C7: truthiness of a prompt setting with value `ask` invokes the injected
collaborator exactly once for this evaluation and returns its boolean answer;
with value `false` it returns false and with value `true` it returns true,
both without invoking the collaborator. -/
theorem C7_prompt_bool (title question : String)
    (ask_question : String → String → Bool) :
    PromptSetting.bool_ .ask title question ask_question =
      (ask_question title question, 1) ∧
    PromptSetting.bool_ .false_ title question ask_question = (false, 0) ∧
    PromptSetting.bool_ .true_ title question ask_question = (true, 0) := by
  exact ⟨rfl, rfl, rfl⟩

/-- C8: for the order setting with strategy `alphabetical`, when the global
ignore-case setting currently holds, sorting `b`, `A`, `a` yields the
case-insensitive ascending order when the global reverse setting is
currently off and the descending order when it is on; both flags enter only
through the globals record read at sort time. -/
theorem C8_order_sort_alphabetical (g : SortGlobals)
    (hic : g.ignore_case = true) :
    (g.reverse = false →
      OrderSetting.sort str_le ("alphabetical") (fun s => s) g ["b", "A", "a"] =
        ["A", "a", "b"]) ∧
    (g.reverse = true →
      OrderSetting.sort str_le ("alphabetical") (fun s => s) g ["b", "A", "a"] =
        ["b", "A", "a"]) := by
  cases g with
  | mk ic rev =>
    dsimp at hic
    subst hic
    cases rev with
    | false => exact ⟨fun _ => (by decide), fun hr => (nomatch hr)⟩
    | true => exact ⟨fun hr => (nomatch hr), fun _ => (by decide)⟩

/-- Witness for C8 at the two concrete global states: ignore-case on with
reverse off gives the ascending order, ignore-case on with reverse on gives
the descending order. -/
theorem C8_witness :
    OrderSetting.sort str_le ("alphabetical") (fun s => s) ⟨true, false⟩
      ["b", "A", "a"] = ["A", "a", "b"] ∧
    OrderSetting.sort str_le ("alphabetical") (fun s => s) ⟨true, true⟩
      ["b", "A", "a"] = ["b", "A", "a"] :=
  ⟨(C8_order_sort_alphabetical ⟨true, false⟩ rfl).1 rfl,
   (C8_order_sort_alphabetical ⟨true, true⟩ rfl).2 rfl⟩

/-- C10: the prompt setting offers exactly the completion suggestions `true`,
`prompt`, `false`, yet converting the offered suggestion `prompt` fails with
the conversion error, while the accepted token `ask` is absent from the
suggestions. -/
theorem C10_prompt_suggestions_mismatch :
    PromptSetting.suggestions = ["true", "prompt", "false"] ∧
    Setting.convert PromptSetting.convertstr ("Prompt") (.str ("prompt")) =
      .error (.cannotConvert (.str ("prompt")) ("Prompt")) ∧
    Setting.convert PromptSetting.convertstr ("Prompt") (.str ("ask")) =
      .ok .ask ∧
    List.contains PromptSetting.suggestions ("ask") = false := by
  exact ⟨rfl, by decide, by decide, by decide⟩

end Vimiv
